import Mathlib

/-!
Verification of the HTTP local proxy core (`relay/tcprelay/http_local.rs`)
of shadowsocks-rust: the destination resolver `host_addr`, the request
dispatcher `server_dispatch`, the tunnel relay `establish_connect_tunnel`,
and the per-backend client map built in `run`.

The embedding models strings as lists of characters (the inputs of interest
are ASCII, so character positions coincide with Rust byte positions).
The behaviour of the Rust standard library address parsers
(`str::parse::<SocketAddr>`, `str::parse::<IpAddr>`, from `core::net::parser`)
and of the `http` crate authority accessors (`Authority::host`,
`Authority::port_u16`) is translated here because `host_addr` calls them.
-/

/-- One step of `char::to_digit(radix)`: the numeric value of a digit
character, if it is below the radix. -/
def charDigit (radix : Nat) (c : Char) : Option Nat :=
  let v : Option Nat :=
    if c.isDigit then some (c.toNat - 48)
    else if 'a' ≤ c ∧ c ≤ 'z' then some (c.toNat - 87)
    else if 'A' ≤ c ∧ c ≤ 'Z' then some (c.toNat - 55)
    else none
  match v with
  | some v => if v < radix then some v else none
  | none => none

/-- The digit-consuming loop of `Parser::read_number`: consumes digit
characters, failing (like the checked arithmetic in the source) when the
accumulated value exceeds `bound` or when more than `maxDigits` digits
appear; stops at the first non-digit, returning the value, the digit
count and the remaining input. -/
def readNumberGo (radix bound : Nat) (maxDigits : Option Nat) :
    List Char → Nat → Nat → Option (Nat × Nat × List Char)
  | [], acc, count => some (acc, count, [])
  | c :: rest, acc, count =>
    match charDigit radix c with
    | none => some (acc, count, c :: rest)
    | some d =>
      let acc2 := acc * radix + d
      if bound < acc2 then none
      else
        match maxDigits with
        | some m =>
          if m < count + 1 then none
          else readNumberGo radix bound maxDigits rest acc2 (count + 1)
        | none => readNumberGo radix bound maxDigits rest acc2 (count + 1)

/-- `Parser::read_number(radix, max_digits, allow_zero_prefix)` over an
integer type whose maximum value is `bound`: at least one digit, optional
rejection of a leading zero. -/
def readNumber (radix : Nat) (maxDigits : Option Nat) (allowZeroPrefix : Bool)
    (bound : Nat) (s : List Char) : Option (Nat × List Char) :=
  let hasLeadingZero : Bool := match s with | '0' :: _ => true | _ => false
  match readNumberGo radix bound maxDigits s 0 0 with
  | none => none
  | some (v, count, rest) =>
    if count = 0 then none
    else if !allowZeroPrefix && hasLeadingZero && decide (1 < count) then none
    else some (v, rest)

/-- `Parser::read_given_char`: consume exactly the expected character. -/
def readGivenChar (target : Char) : List Char → Option (List Char)
  | [] => none
  | c :: rest => if c = target then some rest else none

/-- One IPv4 group: `read_number(10, Some(3), false)` on a `u8`. -/
def readIpv4Group (s : List Char) : Option (Nat × List Char) :=
  readNumber 10 (some 3) false 255 s

/-- `Parser::read_ipv4_addr`: four dot-separated octets. -/
def readIpv4Addr (s : List Char) : Option ((Nat × Nat × Nat × Nat) × List Char) := do
  let (g0, s) ← readIpv4Group s
  let s ← readGivenChar '.' s
  let (g1, s) ← readIpv4Group s
  let s ← readGivenChar '.' s
  let (g2, s) ← readIpv4Group s
  let s ← readGivenChar '.' s
  let (g3, s) ← readIpv4Group s
  pure ((g0, g1, g2, g3), s)

/-- An IP address: four IPv4 octets, or the eight 16-bit groups of an
IPv6 address. -/
inductive IpAddr where
  | v4 (a b c d : Nat)
  | v6 (groups : List Nat)
deriving DecidableEq, Repr

/-- One IPv6 group with its leading `:` separator when `i > 0`:
`read_separator(':', i, read_number(16, Some(4), true))` on a `u16`. -/
def readIpv6Group (i : Nat) (s : List Char) : Option (Nat × List Char) :=
  if i = 0 then readNumber 16 (some 4) true 65535 s
  else
    match readGivenChar ':' s with
    | none => none
    | some s1 => readNumber 16 (some 4) true 65535 s1

/-- A trailing embedded IPv4 address with its leading `:` separator when
`i > 0`, as attempted inside `read_groups`. -/
def readEmbeddedIpv4 (i : Nat) (s : List Char) :
    Option ((Nat × Nat × Nat × Nat) × List Char) :=
  if i = 0 then readIpv4Addr s
  else
    match readGivenChar ':' s with
    | none => none
    | some s1 => readIpv4Addr s1

/-- The `read_groups` helper of `Parser::read_ipv6_addr`: reads up to
`remaining` further colon-separated groups starting at slot index `i`
(so `remaining` stands for `limit - i` of the source's loop), first
attempting a trailing embedded IPv4 address whenever at least two slots
remain. Returns the groups read, whether an embedded IPv4 ended the
run, and the remaining input. -/
def readIpv6Groups (remaining i : Nat) (s : List Char) (acc : List Nat) :
    List Nat × Bool × List Char :=
  match remaining with
  | 0 => (acc, false, s)
  | r + 1 =>
    let emb := if 0 < r then readEmbeddedIpv4 i s else none
    match emb with
    | some ((a, b, c, d), s1) => (acc ++ [a * 256 + b, c * 256 + d], true, s1)
    | none =>
      match readIpv6Group i s with
      | some (g, s1) => readIpv6Groups r (i + 1) s1 (acc ++ [g])
      | none => (acc, false, s)

/-- `Parser::read_ipv6_addr`: a head run of groups; if fewer than eight,
a `::` followed by a tail run filling the back of the address, the gap
being zero groups. An embedded IPv4 may not appear before the `::`. -/
def readIpv6Addr (s : List Char) : Option (List Nat × List Char) :=
  let (head, headIpv4, s1) := readIpv6Groups 8 0 s []
  if head.length = 8 then some (head, s1)
  else if headIpv4 then none
  else
    match readGivenChar ':' s1 with
    | none => none
    | some s2 =>
      match readGivenChar ':' s2 with
      | none => none
      | some s3 =>
        let limit := 8 - (head.length + 1)
        let (tail, _, s4) := readIpv6Groups limit 0 s3 []
        some (head ++ List.replicate (8 - head.length - tail.length) 0 ++ tail, s4)

/-- `Parser::read_ip_addr`: IPv4 first, otherwise IPv6. -/
def readIpAddr (s : List Char) : Option (IpAddr × List Char) :=
  match readIpv4Addr s with
  | some ((a, b, c, d), s1) => some (.v4 a b c d, s1)
  | none =>
    match readIpv6Addr s with
    | some (g, s1) => some (.v6 g, s1)
    | none => none

/-- `str::parse::<IpAddr>()`: the whole input must be consumed
(`read_till_eof`). -/
def parseIpAddrChars (s : List Char) : Option IpAddr :=
  match readIpAddr s with
  | some (ip, []) => some ip
  | _ => none

/-- A socket address: IP plus port. (The IPv6 scope id accepted by the
parser is validated but not retained here; no claim concerns it.) -/
structure SockAddr where
  ip : IpAddr
  port : Nat
deriving DecidableEq, Repr

/-- `Parser::read_port`: `:` then a `u16` number allowing leading zeros. -/
def readPort (s : List Char) : Option (Nat × List Char) :=
  match readGivenChar ':' s with
  | none => none
  | some s1 => readNumber 10 none true 65535 s1

/-- `Parser::read_scope_id`: `%` then a `u32` number. -/
def readScopeId (s : List Char) : Option (Nat × List Char) :=
  match readGivenChar '%' s with
  | none => none
  | some s1 => readNumber 10 none true 4294967295 s1

/-- `Parser::read_socket_addr_v4`: IPv4 address then port. -/
def readSocketAddrV4 (s : List Char) : Option (SockAddr × List Char) := do
  let ((a, b, c, d), s) ← readIpv4Addr s
  let (port, s) ← readPort s
  pure (⟨.v4 a b c d, port⟩, s)

/-- `Parser::read_socket_addr_v6`: `[`, IPv6 address, optional scope id,
`]`, then port. -/
def readSocketAddrV6 (s : List Char) : Option (SockAddr × List Char) := do
  let s ← readGivenChar '[' s
  let (g, s) ← readIpv6Addr s
  let s := match readScopeId s with | some (_, s1) => s1 | none => s
  let s ← readGivenChar ']' s
  let (port, s) ← readPort s
  pure (⟨.v6 g, port⟩, s)

/-- `Parser::read_socket_addr`: v4 form first, otherwise v6 form. -/
def readSocketAddr (s : List Char) : Option (SockAddr × List Char) :=
  match readSocketAddrV4 s with
  | some r => some r
  | none => readSocketAddrV6 s

/-- `str::parse::<SocketAddr>()`: the whole input must be consumed. -/
def parseSocketAddr (s : String) : Option SockAddr :=
  match readSocketAddr s.data with
  | some (sa, []) => some sa
  | _ => none

/-- The suffix after the last occurrence of `c`, if `c` occurs. -/
def afterLast (c : Char) : List Char → Option (List Char)
  | [] => none
  | x :: xs =>
    match afterLast c xs with
    | some r => some r
    | none => if x = c then some xs else none

/-- `auth.rsplitn(2, const@'@').next()` of the `http` crate `host`
helper: everything after the last `@`, or the whole input when there is
none. -/
def afterLastAt (l : List Char) : List Char :=
  match afterLast '@' l with
  | some r => r
  | none => l

/-- Take characters up to and including the first `]` (the bracketed-host
case of the `http` crate `host` helper). -/
def takeThroughRBracket : List Char → List Char
  | [] => []
  | c :: r => if c = ']' then [c] else c :: takeThroughRBracket r

/-- The `http` crate `Authority::host`: drop any userinfo (up to the last
`@`); a bracketed host is taken through its closing bracket, any other
host is cut at the first `:`. -/
def authorityHostChars (auth : List Char) : List Char :=
  let hp := afterLastAt auth
  match hp with
  | '[' :: _ => takeThroughRBracket hp
  | _ => hp.takeWhile (fun c => c ≠ ':')

/-- `Authority::host` on strings. -/
def authorityHost (auth : String) : String :=
  ⟨authorityHostChars auth.data⟩

/-- Digit loop of `u16::from_str`: all characters must be digits and the
value must fit in a `u16`. -/
def parseU16Digits : List Char → Nat → Option Nat
  | [], acc => some acc
  | c :: r, acc =>
    if c.isDigit then
      let v := acc * 10 + (c.toNat - 48)
      if v ≤ 65535 then parseU16Digits r v else none
    else none

/-- `u16::from_str`: optional sign, then at least one digit; a minus sign
only admits the value zero (checked unsigned subtraction). -/
def parseU16 (s : List Char) : Option Nat :=
  match s with
  | [] => none
  | '+' :: r => if r = [] then none else parseU16Digits r 0
  | '-' :: r =>
    if r = [] then none
    else
      match parseU16Digits r 0 with
      | some 0 => some 0
      | _ => none
  | r => parseU16Digits r 0

/-- The `http` crate `Authority::port_u16`: the text after the last `:`
parsed as a `u16`, if any `:` occurs and the parse succeeds. -/
def authorityPortU16 (auth : String) : Option Nat :=
  match afterLast ':' auth.data with
  | none => none
  | some suffix => parseU16 suffix

/-- The `socks5::Address` type consumed by the connector: a literal
socket address or a domain name with a port. -/
inductive Address where
  | SocketAddress (sa : SockAddr)
  | DomainNameAddress (host : String) (port : Nat)
deriving DecidableEq, Repr

/-- The port carried by an `Address`. -/
def addressPort : Address → Nat
  | .SocketAddress sa => sa.port
  | .DomainNameAddress _ p => p

/-- Shallow model of the `http::Uri` surface consumed by `host_addr`:
its `scheme_str()` and the `as_str()` of its authority, when present.
An origin-form target such as a bare `/relative/path` has no authority;
an authority-form target (a `CONNECT` target) has an authority and no
scheme. -/
structure Uri where
  scheme : Option String
  authority : Option String
deriving DecidableEq, Repr

/-- The port derived from the scheme in the no-explicit-port branch of
`host_addr` (the `let port = match uri.scheme_str() ...` with its early
`return None` for unsupported schemes). -/
def defaultSchemePort : Option String → Option Nat
  | none => some 80
  | some s => if s = "http" then some 80 else if s = "https" then some 443 else none

/-- `str::starts_with(char)` on a character list. -/
def startsWithChar (c : Char) : List Char → Bool
  | [] => false
  | x :: _ => x = c

/-- `str::ends_with(char)` on a character list. -/
def endsWithChar (c : Char) (l : List Char) : Bool :=
  startsWithChar c l.reverse

/-- `str::trim_start_matches(char)`. -/
def trimStartMatches (c : Char) (l : List Char) : List Char :=
  l.dropWhile (fun x => x = c)

/-- `str::trim_end_matches(char)`. -/
def trimEndMatches (c : Char) (l : List Char) : List Char :=
  (l.reverse.dropWhile (fun x => x = c)).reverse

/-- The destination resolver `host_addr` of `http_local.rs`: no
authority fails; with an explicit port, the whole authority is tried as
a literal socket address, else host plus port becomes a domain name;
with no port, the scheme chooses a default port, a bracketed host must
parse as an IP address, and any other host is tried as a literal IP
before falling back to the whole authority string as a domain name. -/
def host_addr (uri : Uri) : Option Address :=
  match uri.authority with
  | none => none
  | some authority =>
    match authorityPortU16 authority with
    | some port =>
      match parseSocketAddr authority with
      | some saddr => some (Address.SocketAddress saddr)
      | none => some (Address.DomainNameAddress (authorityHost authority) port)
    | none =>
      match defaultSchemePort uri.scheme with
      | none => none
      | some port =>
        let cs := authority.data
        if startsWithChar '[' cs && endsWithChar ']' cs then
          match parseIpAddrChars (trimEndMatches ']' (trimStartMatches '[' cs)) with
          | some a => some (Address.SocketAddress ⟨a, port⟩)
          | none => none
        else
          match parseIpAddrChars cs with
          | some a => some (Address.SocketAddress ⟨a, port⟩)
          | none => some (Address.DomainNameAddress authority port)

/-- Decimal display of an IPv4 address, hexadecimal-free group display of
an IPv6 address. Modelled from the spec: the `Display` of `Address` used
in response bodies and log lines ("a short body naming the destination");
the actual impl lives in the socks5 module, outside this source file. -/
def ipDisplay : IpAddr → String
  | .v4 a b c d =>
    toString a ++ "." ++ toString b ++ "." ++ toString c ++ "." ++ toString d
  | .v6 gs => String.intercalate ":" (gs.map toString)

/-- Modelled from the spec: `Address` display, `host:port` or `ip:port`
(the `Display` impl is in the socks5 module, outside this source file). -/
def addressDisplay : Address → String
  | .SocketAddress sa => ipDisplay sa.ip ++ ":" ++ toString sa.port
  | .DomainNameAddress h p => h ++ ":" ++ toString p

/-- HTTP request methods as compared by `server_dispatch` (only the
`CONNECT` test matters). -/
inductive Method where
  | CONNECT
  | GET
  | POST
  | other (name : String)
deriving DecidableEq, Repr

/-- The parts of a `hyper::Request` read by `server_dispatch`. -/
structure HttpRequest where
  method : Method
  uri : Uri
deriving DecidableEq, Repr

/-- The parts of a `hyper::Response` the dispatcher constructs or
forwards: status, headers and body. A fresh `Response::new`/`builder`
response has status 200 and no headers. -/
structure HttpResponse where
  status : Nat
  headers : List (String × String)
  body : String
deriving DecidableEq, Repr

/-- `io::Result`: a value or an I/O error message. -/
inductive IoResult (α : Type) where
  | ok (v : α)
  | err (e : String)
deriving DecidableEq, Repr

/-- The outcomes of the awaited external operations during one dispatch:
the backend connect (`connect_proxy_server`) and tunnel handshake
(`proxy_server_handshake`) for the `CONNECT` branch, the per-backend
client round trip (`client.request`) for the forwarding branch, and the
client upgrade (`on_upgrade`) observed only by the spawned tunnel task. -/
structure DispatchEnv where
  connectResult : IoResult Unit
  handshakeResult : IoResult Unit
  clientResult : IoResult HttpResponse
  upgradeResult : IoResult Unit
deriving DecidableEq, Repr

/-- What one `server_dispatch` call did: its returned `io::Result` of a
response, how many backend tunnel connects it started, how many
client-forwarded requests it issued, and whether it spawned a detached
tunnel-relay task. -/
structure DispatchOutput where
  result : IoResult HttpResponse
  tunnelConnects : Nat
  clientRequests : Nat
  spawnedRelay : Bool
deriving DecidableEq, Repr

/-- The request dispatcher `server_dispatch` of `http_local.rs`.
An unresolvable target answers `400 Bad Request` locally. A `CONNECT`
with a resolvable target connects and handshakes with the backend,
propagating either failure as the dispatch's own error; on success it
spawns the detached upgrade-and-relay task and immediately returns the
`200` response built with the `Proxy-Agent` header and empty body. Any
other method goes through the per-backend client: a failure answers
`500` naming the destination, a success returns the upstream response
unchanged. -/
def server_dispatch (version : String) (req : HttpRequest) (env : DispatchEnv) :
    DispatchOutput :=
  match host_addr req.uri with
  | none =>
    { result := .ok { status := 400, headers := [], body := "URI must be a valid Address" }
      tunnelConnects := 0, clientRequests := 0, spawnedRelay := false }
  | some host =>
    if req.method = Method.CONNECT then
      match env.connectResult with
      | .err e =>
        { result := .err e, tunnelConnects := 1, clientRequests := 0, spawnedRelay := false }
      | .ok _ =>
        match env.handshakeResult with
        | .err e =>
          { result := .err e, tunnelConnects := 1, clientRequests := 0, spawnedRelay := false }
        | .ok _ =>
          { result := .ok { status := 200
                            headers := [("Proxy-Agent", "ShadowSocks/" ++ version)]
                            body := "" }
            tunnelConnects := 1, clientRequests := 0, spawnedRelay := true }
    else
      match env.clientResult with
      | .err _ =>
        { result := .ok { status := 500, headers := []
                          body := "Relay failed to " ++ addressDisplay host }
          tunnelConnects := 0, clientRequests := 1, spawnedRelay := false }
      | .ok res =>
        { result := .ok res, tunnelConnects := 0, clientRequests := 1, spawnedRelay := false }

/-- Severity of an emitted log event. -/
inductive LogLevel where
  | trace
  | debug
  | errorLevel
deriving DecidableEq, Repr

/-- A log event: severity and message. -/
abbrev LogEvent := LogLevel × String

/-- The completion of one directional copy loop: clean EOF after some
bytes, or an I/O error. -/
inductive CopyResult where
  | done (bytes : Nat)
  | ioError (e : String)
deriving DecidableEq, Repr

/-- The result of `future::select` on the two copy loops: which side
finished first and with what, paired with the never-observed eventual
outcome of the abandoned other side. -/
inductive SelectOutcome where
  | left (r : CopyResult) (abandoned : CopyResult)
  | right (r : CopyResult) (abandoned : CopyResult)
deriving DecidableEq, Repr

/-- The tunnel relay `establish_connect_tunnel` of `http_local.rs`:
after the two copy halves are started it logs the establishment, races
them with `future::select`, logs whichever completion arrived first —
clean or failed, at trace level either way — and logs the teardown.
It returns nothing and cannot fail; the losing copy is dropped. -/
def establish_connect_tunnel (clientAddr svrAddr : String) (addr : Address)
    (sel : SelectOutcome) : List LogEvent :=
  let tag := clientAddr ++ " <-> " ++ svrAddr ++ " (" ++ addressDisplay addr ++ ")"
  let opening : LogEvent := (.debug, "CONNECT relay established " ++ tag)
  let raced : LogEvent :=
    match sel with
    | .left (.done _) _ =>
      (.trace, "CONNECT relay " ++ clientAddr ++ " -> " ++ svrAddr ++ " ("
        ++ addressDisplay addr ++ ") closed")
    | .left (.ioError e) _ =>
      (.trace, "CONNECT relay " ++ clientAddr ++ " -> " ++ svrAddr ++ " ("
        ++ addressDisplay addr ++ ") closed with error " ++ e)
    | .right (.done _) _ =>
      (.trace, "CONNECT relay " ++ clientAddr ++ " <- " ++ svrAddr ++ " ("
        ++ addressDisplay addr ++ ") closed")
    | .right (.ioError e) _ =>
      (.trace, "CONNECT relay " ++ clientAddr ++ " <- " ++ svrAddr ++ " ("
        ++ addressDisplay addr ++ ") closed with error " ++ e)
  let closing : LogEvent := (.debug, "CONNECT relay " ++ tag ++ " closed")
  [opening, raced, closing]

/-- The identity of one backend server as used by `run`: the string form
of its address (`svr_cfg.addr().to_string()`), which keys the client map. -/
structure ServerConfig where
  addr : String
deriving DecidableEq, Repr

/-- `HashMap::insert`: the new binding shadows and removes any previous
binding of the same key. -/
def hashMapInsert (m : List (String × ServerConfig)) (k : String)
    (v : ServerConfig) : List (String × ServerConfig) :=
  (k, v) :: m.filter (fun p => p.1 != k)

/-- `HashMap::get`. -/
def hashMapGet : List (String × ServerConfig) → String → Option ServerConfig
  | [], _ => none
  | (k1, v) :: rest, k => if k1 = k then some v else hashMapGet rest k

/-- The client map built by `run` before accepting: one prebuilt
per-backend client (represented by the backend it was built for) inserted
under each enumerated server's address string. -/
def buildServerClients (servers : List ServerConfig) :
    List (String × ServerConfig) :=
  servers.foldl (fun m cfg => hashMapInsert m cfg.addr cfg) []

lemma host_addr_no_authority (uri : Uri) (h : uri.authority = none) :
    host_addr uri = none := by
  unfold host_addr
  rw [h]

lemma host_addr_no_port_port (uri : Uri) (a : String) (port : Nat)
    (h1 : uri.authority = some a) (h2 : authorityPortU16 a = none)
    (h3 : defaultSchemePort uri.scheme = some port) :
    ∀ addr, host_addr uri = some addr → addressPort addr = port := by
  intro addr h
  unfold host_addr at h
  rw [h1] at h
  simp only [h2, h3] at h
  split at h
  · split at h
    · injection h with h
      subst h
      rfl
    · simp at h
  · split at h
    · injection h with h
      subst h
      rfl
    · injection h with h
      subst h
      rfl

lemma host_addr_no_port_fail (uri : Uri) (a : String)
    (h1 : uri.authority = some a) (h2 : authorityPortU16 a = none)
    (h3 : defaultSchemePort uri.scheme = none) :
    host_addr uri = none := by
  unfold host_addr
  rw [h1]
  simp only [h2, h3]

/-- C1 (amended): for a request target whose authority has no explicit
port, `host_addr` derives the port solely from the scheme: scheme `http`
and absence of a scheme both yield port 80, scheme `https` yields port
443, and any other named scheme makes resolution fail with no `Address`
produced. -/
theorem host_addr_default_port_from_scheme (uri : Uri) (a : String)
    (h1 : uri.authority = some a) (h2 : authorityPortU16 a = none) :
    ((uri.scheme = none ∨ uri.scheme = some "http") →
      ∀ addr, host_addr uri = some addr → addressPort addr = 80)
    ∧ (uri.scheme = some "https" →
      ∀ addr, host_addr uri = some addr → addressPort addr = 443)
    ∧ (∀ s, uri.scheme = some s → s ≠ "http" → s ≠ "https" →
      host_addr uri = none) := by
  refine ⟨?_, ?_, ?_⟩
  · intro hs
    apply host_addr_no_port_port uri a 80 h1 h2
    rcases hs with hs | hs <;> rw [hs] <;> simp [defaultSchemePort]
  · intro hs
    apply host_addr_no_port_port uri a 443 h1 h2
    rw [hs]
    simp [defaultSchemePort]
  · intro s hs hn1 hn2
    apply host_addr_no_port_fail uri a h1 h2
    rw [hs]
    simp [defaultSchemePort, hn1, hn2]

/-- C1 counterexample: the target `https://example.com` has a named
scheme other than `http` and no explicit port, yet `host_addr` does not
fail: it produces `DomainName("example.com", 443)`. -/
theorem host_addr_https_counterexample :
    host_addr ⟨some "https", some "example.com"⟩ =
      some (Address.DomainNameAddress "example.com" 443) := by
  decide

/-- C1 witness: a concrete instance of the amended default-port theorem,
at the scheme-less authority `example.com` resolving with port 80. -/
theorem host_addr_default_port_from_scheme_witness :
    authorityPortU16 "example.com" = none ∧
      addressPort (Address.DomainNameAddress "example.com" 80) = 80 :=
  ⟨by decide,
    (host_addr_default_port_from_scheme ⟨none, some "example.com"⟩ "example.com"
      rfl (by decide)).1 (Or.inl rfl)
      (Address.DomainNameAddress "example.com" 80) (by decide)⟩

/-- C4: for a request target whose authority carries an explicit port,
`host_addr` first tries the entire authority as a literal socket
address and wraps it on success; otherwise it pairs the authority's
host part with the given port as a domain name. Concretely,
`example.com:443` resolves to `DomainName("example.com", 443)` and
`[::1]:8080` resolves to `SocketAddress(::1, 8080)`. -/
theorem host_addr_explicit_port (uri : Uri) (a : String) (port : Nat)
    (h1 : uri.authority = some a) (h2 : authorityPortU16 a = some port) :
    host_addr uri =
      (match parseSocketAddr a with
        | some saddr => some (Address.SocketAddress saddr)
        | none => some (Address.DomainNameAddress (authorityHost a) port))
    ∧ host_addr ⟨none, some "example.com:443"⟩ =
        some (Address.DomainNameAddress "example.com" 443)
    ∧ host_addr ⟨none, some "[::1]:8080"⟩ =
        some (Address.SocketAddress ⟨IpAddr.v6 [0, 0, 0, 0, 0, 0, 0, 1], 8080⟩) := by
  refine ⟨?_, by decide, by decide⟩
  unfold host_addr
  rw [h1]
  simp only [h2]

/-- C4 witness: the explicit-port characterization applied at the
concrete authority `example.com:443`. -/
theorem host_addr_explicit_port_witness :
    host_addr ⟨none, some "example.com:443"⟩ =
      (match parseSocketAddr "example.com:443" with
        | some saddr => some (Address.SocketAddress saddr)
        | none => some (Address.DomainNameAddress (authorityHost "example.com:443") 443)) :=
  (host_addr_explicit_port ⟨none, some "example.com:443"⟩ "example.com:443" 443
    rfl (by decide)).1

/-- C9: when the authority is present and carries an explicit port, the
explicit-port branch of `host_addr` always produces an `Address`: each
of its two arms is a `some`. -/
theorem host_addr_explicit_port_total (uri : Uri) (a : String) (port : Nat)
    (h1 : uri.authority = some a) (h2 : authorityPortU16 a = some port) :
    (host_addr uri).isSome = true := by
  unfold host_addr
  rw [h1]
  simp only [h2]
  split <;> rfl

/-- C9 witness: the explicit-port branch succeeds at the concrete
authority `definitely-not-an-ip.example:9` (which fails literal
socket-address parsing and falls back to a domain name). -/
theorem host_addr_explicit_port_total_witness :
    (host_addr ⟨none, some "definitely-not-an-ip.example:9"⟩).isSome = true :=
  host_addr_explicit_port_total ⟨none, some "definitely-not-an-ip.example:9"⟩
    "definitely-not-an-ip.example:9" 9 rfl (by decide)

/-- C2 (amended): a request whose target yields no `Address` — in
particular an origin-form target with no authority such as
`/relative/path` — is answered `400 Bad Request` with the short body
`URI must be a valid Address`, with no backend connect and no forwarded
request. A `CONNECT` target with no colon such as `nohost`, however, is
not malformed for `host_addr`: it still has an authority and resolves to
`DomainName("nohost", 80)`, so it proceeds past this guard. -/
theorem server_dispatch_bad_target (version : String) (req : HttpRequest)
    (env : DispatchEnv) (h : host_addr req.uri = none) :
    server_dispatch version req env =
      { result := .ok { status := 400, headers := [], body := "URI must be a valid Address" }
        tunnelConnects := 0, clientRequests := 0, spawnedRelay := false }
    ∧ host_addr ⟨none, none⟩ = none
    ∧ host_addr ⟨none, some "nohost"⟩ = some (Address.DomainNameAddress "nohost" 80) := by
  refine ⟨?_, by decide, by decide⟩
  unfold server_dispatch
  rw [h]

/-- C2 witness: the `400` answer at the concrete origin-form target
`/relative/path`, which has no authority. -/
theorem server_dispatch_bad_target_witness :
    server_dispatch "0" ⟨Method.GET, ⟨none, none⟩⟩
        ⟨.ok (), .ok (), .ok ⟨200, [], ""⟩, .ok ()⟩ =
      { result := .ok { status := 400, headers := [], body := "URI must be a valid Address" }
        tunnelConnects := 0, clientRequests := 0, spawnedRelay := false } :=
  (server_dispatch_bad_target "0" ⟨Method.GET, ⟨none, none⟩⟩
    ⟨.ok (), .ok (), .ok ⟨200, [], ""⟩, .ok ()⟩ (by decide)).1

/-- C2 counterexample: the target of `CONNECT nohost` (authority-form
`nohost`, no colon) does not get a `400` response: `host_addr` resolves
it to `DomainName("nohost", 80)` and the dispatcher proceeds to attempt
a backend connection, propagating the connect failure instead. -/
theorem server_dispatch_connect_nohost_counterexample :
    server_dispatch "0" ⟨Method.CONNECT, ⟨none, some "nohost"⟩⟩
        ⟨.err "connection refused", .ok (), .ok ⟨200, [], ""⟩, .ok ()⟩ =
      { result := .err "connection refused"
        tunnelConnects := 1, clientRequests := 0, spawnedRelay := false } := by
  decide

/-- C3: a `CONNECT` request whose target resolves and whose backend
connect and handshake both succeed gets exactly one success response:
status `200`, empty body, and the single header
`Proxy-Agent: ShadowSocks/<version>`; the tunnel relay is spawned as a
detached task and neither the upgrade's nor the tunnel's outcome is
awaited by (or can influence) the returned response. -/
theorem server_dispatch_connect_success (version : String) (req : HttpRequest)
    (env : DispatchEnv) (host : Address)
    (hm : req.method = Method.CONNECT)
    (hh : host_addr req.uri = some host)
    (hc : env.connectResult = .ok ())
    (hs : env.handshakeResult = .ok ()) :
    (server_dispatch version req env).result =
      .ok { status := 200
            headers := [("Proxy-Agent", "ShadowSocks/" ++ version)]
            body := "" }
    ∧ (server_dispatch version req env).spawnedRelay = true
    ∧ ∀ up, server_dispatch version req { env with upgradeResult := up } =
        server_dispatch version req env := by
  refine ⟨?_, ?_, ?_⟩ <;>
    simp [server_dispatch, hh, hm, hc, hs]

/-- C3 witness: the `200` tunnel-established response at the concrete
target `example.com:443` with version `1.0.0`. -/
theorem server_dispatch_connect_success_witness :
    (server_dispatch "1.0.0" ⟨Method.CONNECT, ⟨none, some "example.com:443"⟩⟩
        ⟨.ok (), .ok (), .ok ⟨200, [], ""⟩, .ok ()⟩).result =
      .ok { status := 200
            headers := [("Proxy-Agent", "ShadowSocks/1.0.0")]
            body := "" } :=
  (server_dispatch_connect_success "1.0.0"
    ⟨Method.CONNECT, ⟨none, some "example.com:443"⟩⟩
    ⟨.ok (), .ok (), .ok ⟨200, [], ""⟩, .ok ()⟩
    (Address.DomainNameAddress "example.com" 443)
    rfl (by decide) rfl rfl).1

/-- C6: a non-`CONNECT` request whose target resolves and whose
forwarding through the per-backend client fails is answered — as a
successful dispatch result, keeping the client connection usable — with
`500 Internal Server Error` and a body naming the resolved destination;
a successful forwarding returns the upstream response unmodified. -/
theorem server_dispatch_forward (version : String) (req : HttpRequest)
    (env : DispatchEnv) (host : Address)
    (hm : req.method ≠ Method.CONNECT)
    (hh : host_addr req.uri = some host) :
    (∀ e, env.clientResult = .err e →
      (server_dispatch version req env).result =
        .ok { status := 500, headers := []
              body := "Relay failed to " ++ addressDisplay host })
    ∧ ∀ r, env.clientResult = .ok r →
        (server_dispatch version req env).result = .ok r := by
  constructor
  · intro e he
    simp [server_dispatch, hh, hm, he]
  · intro r hr
    simp [server_dispatch, hh, hm, hr]

/-- C6 witness: the `500` response naming destination
`unreachable.example:80` for a failed `GET` forwarding. -/
theorem server_dispatch_forward_witness :
    (server_dispatch "0" ⟨Method.GET, ⟨some "http", some "unreachable.example"⟩⟩
        ⟨.ok (), .ok (), .err "connect timed out", .ok ()⟩).result =
      .ok { status := 500, headers := []
            body := "Relay failed to unreachable.example:80" } :=
  (server_dispatch_forward "0" ⟨Method.GET, ⟨some "http", some "unreachable.example"⟩⟩
    ⟨.ok (), .ok (), .err "connect timed out", .ok ()⟩
    (Address.DomainNameAddress "unreachable.example" 80)
    (by decide) (by decide)).1 "connect timed out" rfl

/-- C7: a `CONNECT` request whose target resolves but whose backend
connect or tunnel handshake fails makes the whole dispatch call return
that I/O error — no HTTP error response is produced for the request. -/
theorem server_dispatch_connect_failure (version : String) (req : HttpRequest)
    (env : DispatchEnv) (host : Address)
    (hm : req.method = Method.CONNECT)
    (hh : host_addr req.uri = some host) :
    (∀ e, env.connectResult = .err e →
      (server_dispatch version req env).result = .err e)
    ∧ ∀ e, env.connectResult = .ok () → env.handshakeResult = .err e →
        (server_dispatch version req env).result = .err e := by
  constructor
  · intro e he
    simp [server_dispatch, hh, hm, he]
  · intro e hc he
    simp [server_dispatch, hh, hm, hc, he]

/-- C7 witness: a handshake failure on `CONNECT example.com:443`
propagated as the dispatch call's own error. -/
theorem server_dispatch_connect_failure_witness :
    (server_dispatch "0" ⟨Method.CONNECT, ⟨none, some "example.com:443"⟩⟩
        ⟨.ok (), .err "handshake rejected", .ok ⟨200, [], ""⟩, .ok ()⟩).result =
      .err "handshake rejected" :=
  (server_dispatch_connect_failure "0"
    ⟨Method.CONNECT, ⟨none, some "example.com:443"⟩⟩
    ⟨.ok (), .err "handshake rejected", .ok ⟨200, [], ""⟩, .ok ()⟩
    (Address.DomainNameAddress "example.com" 443)
    rfl (by decide)).2 "handshake rejected" rfl rfl

/-- C5: the tunnel relay terminates with whichever directional copy
completes first — on clean EOF and on I/O error alike — always returning
normally with its three log events, none of error severity; the
abandoned direction's eventual outcome is never awaited and cannot
influence the relay's behaviour. -/
theorem establish_connect_tunnel_race_and_abandon (clientAddr svrAddr : String)
    (addr : Address) :
    (∀ sel, (establish_connect_tunnel clientAddr svrAddr addr sel).length = 3)
    ∧ (∀ sel, ∀ ev ∈ establish_connect_tunnel clientAddr svrAddr addr sel,
        ev.1 ≠ LogLevel.errorLevel)
    ∧ (∀ r ab1 ab2,
        establish_connect_tunnel clientAddr svrAddr addr (.left r ab1) =
          establish_connect_tunnel clientAddr svrAddr addr (.left r ab2))
    ∧ (∀ r ab1 ab2,
        establish_connect_tunnel clientAddr svrAddr addr (.right r ab1) =
          establish_connect_tunnel clientAddr svrAddr addr (.right r ab2)) := by
  refine ⟨?_, ?_, ?_, ?_⟩
  · intro sel
    rcases sel with ⟨r, ab⟩ | ⟨r, ab⟩ <;> rcases r <;> rfl
  · intro sel ev hev
    rcases sel with ⟨r, ab⟩ | ⟨r, ab⟩ <;> rcases r <;>
      simp [establish_connect_tunnel] at hev <;>
      rcases hev with h | h | h <;> simp [h]
  · intro r ab1 ab2
    rcases r <;> rfl
  · intro r ab1 ab2
    rcases r <;> rfl

lemma afterLast_of_not_mem (c : Char) (l : List Char) (h : c ∉ l) :
    afterLast c l = none := by
  induction l with
  | nil => rfl
  | cons x xs ih =>
    simp only [List.mem_cons, not_or] at h
    unfold afterLast
    rw [ih h.2]
    simp [h.1, Ne.symm h.1]

lemma afterLast_append_cons (c : Char) (u rest : List Char) (h : c ∉ rest) :
    afterLast c (u ++ c :: rest) = some rest := by
  induction u with
  | nil =>
    rw [List.nil_append]
    unfold afterLast
    rw [afterLast_of_not_mem c rest h]
    simp
  | cons x xs ih =>
    rw [List.cons_append]
    unfold afterLast
    simp only [ih]

/-- C8 counterexample: the authority `user:pass@example.com` with scheme
`http` (no explicit port — `port_u16` fails on `pass@example.com`) falls
into the no-port domain-name branch of `host_addr`, which keeps the whole
authority string: the produced `Address` is
`DomainName("user:pass@example.com", 80)`, retaining the userinfo that
`Authority::host` (shown alongside) would have dropped. -/
theorem host_addr_userinfo_counterexample :
    host_addr ⟨some "http", some "user:pass@example.com"⟩ =
      some (Address.DomainNameAddress "user:pass@example.com" 80)
    ∧ authorityHost "user:pass@example.com" = "example.com" := by
  constructor <;> decide

/-- C8 (amended): userinfo in the authority never makes `host_addr`
fail, but it is dropped from the produced `Address` only in the
explicit-port branch — whose domain-name arm uses `Authority::host`,
stripping everything through the last `@` — while in the no-port branch
the domain-name fallthrough keeps the entire authority string, userinfo
included. -/
theorem host_addr_userinfo (uri : Uri) (a : String) (port : Nat)
    (h1 : uri.authority = some a) :
    (authorityPortU16 a = some port → parseSocketAddr a = none →
      host_addr uri = some (Address.DomainNameAddress (authorityHost a) port))
    ∧ (authorityPortU16 a = none → defaultSchemePort uri.scheme = some port →
        startsWithChar '[' a.data = false → parseIpAddrChars a.data = none →
        host_addr uri = some (Address.DomainNameAddress a port))
    ∧ (∀ userinfo rest : List Char, '@' ∉ rest →
        afterLastAt (userinfo ++ '@' :: rest) = rest) := by
  refine ⟨?_, ?_, ?_⟩
  · intro hp hsa
    unfold host_addr
    rw [h1]
    simp only [hp, hsa]
  · intro hp hd hb hip
    unfold host_addr
    rw [h1]
    simp only [hp, hd, hb, hip, Bool.false_and]
    simp
  · intro userinfo rest h
    unfold afterLastAt
    rw [afterLast_append_cons '@' userinfo rest h]

/-- C8 witness: the amended theorem applied at the explicit-port
authority `user@example.com:443`, where the userinfo is dropped and the
result is `DomainName("example.com", 443)`. -/
theorem host_addr_userinfo_witness :
    host_addr ⟨some "http", some "user@example.com:443"⟩ =
      some (Address.DomainNameAddress "example.com" 443) :=
  ((host_addr_userinfo ⟨some "http", some "user@example.com:443"⟩
      "user@example.com:443" 443 rfl).1 (by decide) (by decide)).trans
    (by decide)

lemma hashMapGet_insert_self (m : List (String × ServerConfig)) (k : String)
    (v : ServerConfig) : hashMapGet (hashMapInsert m k v) k = some v := by
  simp [hashMapInsert, hashMapGet]

lemma hashMapGet_filter_ne (m : List (String × ServerConfig)) (k k2 : String)
    (h : k2 ≠ k) :
    hashMapGet (m.filter (fun p => p.1 != k)) k2 = hashMapGet m k2 := by
  induction m with
  | nil => rfl
  | cons p rest ih =>
    obtain ⟨k1, v⟩ := p
    by_cases hk : k1 = k
    · subst hk
      simp [List.filter_cons, hashMapGet, Ne.symm h, ih]
    · simp [List.filter_cons, hk, hashMapGet, ih]

lemma hashMapGet_insert_preserve (m : List (String × ServerConfig))
    (k k2 : String) (v : ServerConfig)
    (h : (hashMapGet m k2).isSome = true) :
    (hashMapGet (hashMapInsert m k v) k2).isSome = true := by
  by_cases hk : k2 = k
  · subst hk
    rw [hashMapGet_insert_self]
    rfl
  · unfold hashMapInsert hashMapGet
    rw [if_neg (Ne.symm hk)]
    rw [hashMapGet_filter_ne m k k2 hk]
    exact h

lemma buildServerClients_foldl_mem (servers : List ServerConfig)
    (m : List (String × ServerConfig)) (picked : ServerConfig)
    (h : picked ∈ servers ∨ (hashMapGet m picked.addr).isSome = true) :
    (hashMapGet
      (servers.foldl (fun m2 cfg => hashMapInsert m2 cfg.addr cfg) m)
      picked.addr).isSome = true := by
  induction servers generalizing m with
  | nil =>
    rcases h with h | h
    · simp at h
    · exact h
  | cons cfg rest ih =>
    rw [List.foldl_cons]
    apply ih
    rcases h with h | h
    · rcases List.mem_cons.mp h with h | h
      · subst h
        right
        rw [hashMapGet_insert_self]
        rfl
      · left
        exact h
    · right
      exact hashMapGet_insert_preserve m cfg.addr picked.addr cfg h

/-- C10: when every backend the balancer can pick was in the server set
enumerated at startup, the per-connection lookup of the prebuilt
per-backend client in `run`'s accept loop always finds an entry — the
`unwrap` on `server_clients.get(&addr_str)` can never panic. -/
theorem run_client_lookup_total (servers : List ServerConfig)
    (picked : ServerConfig) (h : picked ∈ servers) :
    (hashMapGet (buildServerClients servers) picked.addr).isSome = true := by
  unfold buildServerClients
  exact buildServerClients_foldl_mem servers [] picked (Or.inl h)

/-- C10 witness: the lookup succeeds for a picked backend that is the
second of two enumerated servers. -/
theorem run_client_lookup_total_witness :
    (hashMapGet (buildServerClients [⟨"server-a:8388"⟩, ⟨"server-b:8388"⟩])
      (ServerConfig.mk "server-b:8388").addr).isSome = true :=
  run_client_lookup_total [⟨"server-a:8388"⟩, ⟨"server-b:8388"⟩]
    ⟨"server-b:8388"⟩ (by simp)

/-- C5 witness: the race-and-abandon theorem applied at a concrete
relay, showing a clean left completion is unaffected by the abandoned
side's eventual outcome. -/
theorem establish_connect_tunnel_race_and_abandon_witness :
    establish_connect_tunnel "127.0.0.1:5000" "server:8388"
        (Address.DomainNameAddress "example.com" 443)
        (.left (.done 10) (.ioError "late failure")) =
      establish_connect_tunnel "127.0.0.1:5000" "server:8388"
        (Address.DomainNameAddress "example.com" 443)
        (.left (.done 10) (.done 0)) :=
  (establish_connect_tunnel_race_and_abandon "127.0.0.1:5000" "server:8388"
    (Address.DomainNameAddress "example.com" 443)).2.2.1
    (.done 10) (.ioError "late failure") (.done 0)
